/-
Verification of the AnyDocument_AI ingestion-and-query pipeline (src/app.py)
against its natural-language specification.

The Python code is shallowly embedded: Python `str` is modelled as Lean
`String` (a sequence of Unicode code points, matching Python's `len` and
slicing semantics), fallible external calls (the `ollama` CLI, the chat API,
the PDF/DOCX/UTF-8 decoders) are modelled as explicit outcome values, and the
Streamlit UI effects (st.error / st.warning / ...) are modelled as an explicit
event list returned by each handler.
-/
import Mathlib

set_option maxHeartbeats 1000000

namespace AnyDocumentAI

/-! ## Python string primitives

These model the CPython `str` operations used by app.py: `len`, slicing
`s[:n]`, `str.join`, `str.strip()`, `str.split()` (no separator),
`str.splitlines()`, `str.startswith`, `str.lower`, and `os.path.splitext`.
-/

/-- Characters CPython `str.strip` / `str.split` treat as whitespace
(ASCII whitespace, the C1 separators, NEL, NBSP and the Unicode line/paragraph
separators; the exotic Zs code points are omitted, none of the program's
constant strings contain them). -/
def pyIsSpace (c : Char) : Bool :=
  c = ' ' ∨ c = '\t' ∨ c = '\n' ∨ c = '\r' ∨ c = '\x0b' ∨ c = '\x0c' ∨
  c = '\x1c' ∨ c = '\x1d' ∨ c = '\x1e' ∨ c = '\x1f' ∨ c = '\x85' ∨
  c = '\xa0' ∨ c = '\u2028' ∨ c = '\u2029'

/-- Python `len(s)`: the number of code points. -/
def pyLen (s : String) : Nat := s.data.length

/-- Python `s[:n]`: the first `n` code points. -/
def pyTake (s : String) (n : Nat) : String := ⟨s.data.take n⟩

/-- Python `s.strip()`: remove leading and trailing whitespace. -/
def pyStrip (s : String) : String :=
  ⟨(((s.data.dropWhile pyIsSpace).reverse.dropWhile pyIsSpace)).reverse⟩

/-- Python `sep.join(xs)`. -/
def pyJoin (sep : String) : List String → String
  | [] => ""
  | [x] => x
  | x :: xs => x ++ sep ++ pyJoin sep xs

/-- Worker for `str.split()` with no separator: `acc` holds the reversed
characters of the token currently being read. -/
def splitWsGo : List Char → List Char → List String
  | [], [] => []
  | [], acc => [⟨acc.reverse⟩]
  | c :: rest, acc =>
    if pyIsSpace c then
      match acc with
      | [] => splitWsGo rest []
      | _ => ⟨acc.reverse⟩ :: splitWsGo rest []
    else splitWsGo rest (c :: acc)

/-- Python `s.split()` (no argument): split on runs of whitespace, never
producing empty tokens. -/
def pySplit (s : String) : List String := splitWsGo s.data []

/-- Characters Python `str.splitlines` treats as a one-character line
boundary (`\r\n` is handled as a unit by `splitlinesGo`). -/
def pyIsLineBreak (c : Char) : Bool :=
  c = '\n' ∨ c = '\r' ∨ c = '\x0b' ∨ c = '\x0c' ∨
  c = '\x1c' ∨ c = '\x1d' ∨ c = '\x1e' ∨ c = '\x85' ∨
  c = '\u2028' ∨ c = '\u2029'

/-- Worker for `str.splitlines()`: `acc` holds the reversed characters of the
current line. A trailing line boundary produces no trailing empty line. -/
def splitlinesGo : List Char → List Char → List String
  | [], [] => []
  | [], acc => [⟨acc.reverse⟩]
  | '\r' :: '\n' :: rest, acc => ⟨acc.reverse⟩ :: splitlinesGo rest []
  | c :: rest, acc =>
    if pyIsLineBreak c then ⟨acc.reverse⟩ :: splitlinesGo rest []
    else splitlinesGo rest (c :: acc)

/-- Python `s.splitlines()`. -/
def pySplitlines (s : String) : List String := splitlinesGo s.data []

/-- Python `s.startswith(pre)`. -/
def pyStartswith (s pre : String) : Bool := pre.data.isPrefixOf s.data

/-- Python `s.lower()` (ASCII case mapping; all extensions compared by the
program are ASCII). -/
def pyLower (s : String) : String := ⟨s.data.map Char.toLower⟩

/-- Last index at which `c` occurs in `l`, if any. -/
def lastIndexOf (l : List Char) (c : Char) : Option Nat :=
  (List.range l.length).foldl
    (fun acc i => if l.getD i ' ' = c then some i else acc) none

/-- Python `os.path.splitext(p)` (POSIX flavour, separator `/`): split at the
last dot of the final path component, unless every character of that component
before the dot is itself a dot (so dotfiles like `.bashrc` have no extension). -/
def splitext (p : String) : String × String :=
  let l := p.data
  let sepIdx : Option Nat := lastIndexOf l '/'
  let dotIdx : Option Nat := lastIndexOf l '.'
  match dotIdx with
  | none => (p, "")
  | some d =>
    let start : Nat := match sepIdx with | none => 0 | some s => s + 1
    let afterSep : Bool := match sepIdx with | none => true | some s => s < d
    if afterSep ∧ ((l.drop start).take (d - start)).any (fun c => c ≠ '.') then
      (⟨l.take d⟩, ⟨l.drop d⟩)
    else (p, "")

/-! ## Constants from app.py -/

def MAX_CONTEXT_CHARS : Nat := 8000

/-- The separator `build_context` joins document contents with. -/
def contextSeparator : String := "\n\n---\n\n"

/-- The marker appended when the context is truncated. -/
def truncationMarker : String := "\n\n[... content truncated ...]"

/-! ## Data model -/

/-- One row of the document table: `{"name": ..., "content": ...}`. -/
structure DocRecord where
  name : String
  content : String
deriving Repr, DecidableEq

/-- A Streamlit UI notification emitted by a handler. -/
inductive UIEvent where
  | error (msg : String)
  | warning (msg : String)
  | success (msg : String)
deriving Repr, DecidableEq

/-! ## build_context -/

/-- The unbounded concatenation: `"\n\n---\n\n".join(dataframe["content"])`.
(`astype(str)` is the identity on the extracted texts, which are strings.) -/
def joinedContents (df : List DocRecord) : String :=
  pyJoin contextSeparator (df.map DocRecord.content)

/-- `build_context` from app.py: join the contents, and if the result is
longer than `MAX_CONTEXT_CHARS` code points, keep the first
`MAX_CONTEXT_CHARS` and append the truncation marker. -/
def build_context (df : List DocRecord) : String :=
  let combined := joinedContents df
  if pyLen combined > MAX_CONTEXT_CHARS then
    pyTake combined MAX_CONTEXT_CHARS ++ truncationMarker
  else combined

/-! ## JSON model

The `.json` branch of `extract_text_from_file` runs the raw text through
`json.load` and re-serialises with `json.dumps(payload, indent=2,
ensure_ascii=False)`.  The model below follows CPython's `json` module on the
float-free fragment of JSON: numbers are integers (inputs with a fraction or
exponent part, or `NaN`/`Infinity`, make the modelled parser fail rather than
succeed with a wrong value), and `\uXXXX` escapes denoting lone surrogates are
rejected because Lean's `Char` cannot carry them. -/

/-- A parsed JSON value (floats excluded from the model). Objects keep
members in CPython dict order: insertion order, a duplicate key keeping its
first position with the last value. -/
inductive PyJson where
  | null
  | bool (b : Bool)
  | int (n : Int)
  | str (s : String)
  | arr (elems : List PyJson)
  | obj (members : List (String × PyJson))

/-- Lowercase hex digit for `n < 16`. -/
def hexDigit (n : Nat) : Char :=
  if n < 10 then Char.ofNat ('0'.toNat + n) else Char.ofNat ('a'.toNat + (n - 10))

/-- How `json.dumps(..., ensure_ascii=False)` renders one string character. -/
def escapeJsonChar (c : Char) : String :=
  if c = '"' then "\\\""
  else if c = '\\' then "\\\\"
  else if c = '\n' then "\\n"
  else if c = '\t' then "\\t"
  else if c = '\r' then "\\r"
  else if c = '\x08' then "\\b"
  else if c = '\x0c' then "\\f"
  else if c.toNat < 0x20 then
    "\\u00" ++ ⟨[hexDigit (c.toNat / 16), hexDigit (c.toNat % 16)]⟩
  else String.singleton c

/-- A JSON string literal as dumped: quoted and escaped. -/
def dumpJsonString (s : String) : String :=
  "\"" ++ String.join (s.data.map escapeJsonChar) ++ "\""

/-- The indentation prefix at nesting level `k` for `indent=2`. -/
def indentStr (k : Nat) : String := ⟨List.replicate (2 * k) ' '⟩

mutual

/-- Body of `json.dumps(v, indent=2, ensure_ascii=False)` at nesting level
`k` (the level of the value's enclosing container). -/
def dumpsVal : PyJson → Nat → String
  | .null, _ => "null"
  | .bool true, _ => "true"
  | .bool false, _ => "false"
  | .int n, _ => toString n
  | .str s, _ => dumpJsonString s
  | .arr [], _ => "[]"
  | .arr (x :: xs), k => "[\n" ++ dumpsArr (x :: xs) (k + 1) ++ "\n" ++ indentStr k ++ "]"
  | .obj [], _ => "\x7b\x7d"
  | .obj (m :: ms), k =>
    "\x7b\n" ++ dumpsObj (m :: ms) (k + 1) ++ "\n" ++ indentStr k ++ "\x7d"

/-- Array elements, one per line at level `k`, separated by `",\n"`. -/
def dumpsArr : List PyJson → Nat → String
  | [], _ => ""
  | [x], k => indentStr k ++ dumpsVal x k
  | x :: y :: xs, k => indentStr k ++ dumpsVal x k ++ ",\n" ++ dumpsArr (y :: xs) k

/-- Object members, one per line at level `k`, `": "` between key and value,
separated by `",\n"`. -/
def dumpsObj : List (String × PyJson) → Nat → String
  | [], _ => ""
  | [(key, v)], k => indentStr k ++ dumpJsonString key ++ ": " ++ dumpsVal v k
  | (key, v) :: m :: ms, k =>
    indentStr k ++ dumpJsonString key ++ ": " ++ dumpsVal v k ++ ",\n" ++
      dumpsObj (m :: ms) k

end

/-- `json.dumps(v, indent=2, ensure_ascii=False)`. -/
def json_dumps (v : PyJson) : String := dumpsVal v 0

/-- The four whitespace characters the JSON grammar allows between tokens. -/
def jsonWs (c : Char) : Bool := c = ' ' ∨ c = '\t' ∨ c = '\n' ∨ c = '\r'

/-- Skip JSON inter-token whitespace. -/
def skipWs (l : List Char) : List Char := l.dropWhile jsonWs

/-- Value of a hex digit character. -/
def parseHexDigit (c : Char) : Option Nat :=
  if '0' ≤ c ∧ c ≤ '9' then some (c.toNat - '0'.toNat)
  else if 'a' ≤ c ∧ c ≤ 'f' then some (10 + c.toNat - 'a'.toNat)
  else if 'A' ≤ c ∧ c ≤ 'F' then some (10 + c.toNat - 'A'.toNat)
  else none

/-- Value of a `\uXXXX` escape's four hex digits. -/
def parseHex4 (a b c d : Char) : Option Nat := do
  let x ← parseHexDigit a
  let y ← parseHexDigit b
  let z ← parseHexDigit c
  let w ← parseHexDigit d
  pure (((x * 16 + y) * 16 + z) * 16 + w)

/-- Parse the body of a JSON string literal (after the opening quote), in
strict mode: raw control characters are an error.  `acc` holds the reversed
characters read so far. -/
def parseStringBody : List Char → List Char → Option (String × List Char)
  | [], _ => none
  | '"' :: rest, acc => some (⟨acc.reverse⟩, rest)
  | '\\' :: '"' :: r, acc => parseStringBody r ('"' :: acc)
  | '\\' :: '\\' :: r, acc => parseStringBody r ('\\' :: acc)
  | '\\' :: '/' :: r, acc => parseStringBody r ('/' :: acc)
  | '\\' :: 'b' :: r, acc => parseStringBody r ('\x08' :: acc)
  | '\\' :: 'f' :: r, acc => parseStringBody r ('\x0c' :: acc)
  | '\\' :: 'n' :: r, acc => parseStringBody r ('\n' :: acc)
  | '\\' :: 'r' :: r, acc => parseStringBody r ('\r' :: acc)
  | '\\' :: 't' :: r, acc => parseStringBody r ('\t' :: acc)
  | '\\' :: 'u' :: a :: b :: c :: d :: r, acc =>
    match parseHex4 a b c d with
    | none => none
    | some n =>
      if 0xd800 ≤ n ∧ n < 0xdc00 then
        match r with
        | '\\' :: 'u' :: a2 :: b2 :: c2 :: d2 :: r2 =>
          match parseHex4 a2 b2 c2 d2 with
          | some m =>
            if 0xdc00 ≤ m ∧ m < 0xe000 then
              parseStringBody r2
                (Char.ofNat (0x10000 + (n - 0xd800) * 0x400 + (m - 0xdc00)) :: acc)
            else none
          | none => none
        | _ => none
      else if 0xdc00 ≤ n ∧ n < 0xe000 then none
      else parseStringBody r (Char.ofNat n :: acc)
  | '\\' :: _, _ => none
  | c :: rest, acc =>
    if c.toNat < 0x20 then none else parseStringBody rest (c :: acc)

/-- Decimal value of a digit list. -/
def digitsToNat (l : List Char) : Nat :=
  l.foldl (fun acc c => acc * 10 + (c.toNat - '0'.toNat)) 0

/-- Parse an unsigned JSON integer token: `0`, or a nonzero digit followed by
digits (matching the integer part of the scanner's number regex, which stops
after a lone `0`). -/
def parseUIntToken : List Char → Option (Nat × List Char)
  | '0' :: r => some (0, r)
  | c :: r =>
    if c.isDigit then
      some (digitsToNat (c :: r.takeWhile Char.isDigit), r.dropWhile Char.isDigit)
    else none
  | [] => none

/-- Parse a signed JSON integer token. -/
def parseIntToken (l : List Char) : Option (Int × List Char) :=
  match l with
  | '-' :: r => (parseUIntToken r).map (fun p => (-(p.1 : Int), p.2))
  | _ => (parseUIntToken l).map (fun p => ((p.1 : Int), p.2))

/-- CPython dict insertion: a duplicate key keeps its first position and takes
the last value; a new key is appended. -/
def objInsert (kvs : List (String × PyJson)) (k : String) (v : PyJson) :
    List (String × PyJson) :=
  if kvs.any (fun p => p.1 = k) then
    kvs.map (fun p => if p.1 = k then (k, v) else p)
  else kvs ++ [(k, v)]

mutual

/-- Parse one JSON value at the head of `l` (no leading whitespace).  `fuel`
bounds the recursion depth; `json_loads` supplies enough for any input. -/
def parseValue : Nat → List Char → Option (PyJson × List Char)
  | 0, _ => none
  | fuel + 1, l =>
    match l with
    | '\x7b' :: rest =>
      match skipWs rest with
      | '\x7d' :: r => some (.obj [], r)
      | s => parseObjItems fuel [] s
    | '[' :: rest =>
      match skipWs rest with
      | ']' :: r => some (.arr [], r)
      | s => parseArrItems fuel [] s
    | '"' :: rest => (parseStringBody rest []).map (fun p => (PyJson.str p.1, p.2))
    | 't' :: 'r' :: 'u' :: 'e' :: rest => some (.bool true, rest)
    | 'f' :: 'a' :: 'l' :: 's' :: 'e' :: rest => some (.bool false, rest)
    | 'n' :: 'u' :: 'l' :: 'l' :: rest => some (.null, rest)
    | l => (parseIntToken l).map (fun p => (PyJson.int p.1, p.2))

/-- Parse the remaining elements of a non-empty array (cursor at a value). -/
def parseArrItems : Nat → List PyJson → List Char → Option (PyJson × List Char)
  | 0, _, _ => none
  | fuel + 1, acc, l =>
    match parseValue fuel l with
    | none => none
    | some (v, rest) =>
      match skipWs rest with
      | ']' :: r2 => some (.arr (acc ++ [v]), r2)
      | ',' :: r2 => parseArrItems fuel (acc ++ [v]) (skipWs r2)
      | _ => none

/-- Parse the remaining members of a non-empty object (cursor at a key). -/
def parseObjItems : Nat → List (String × PyJson) → List Char →
    Option (PyJson × List Char)
  | 0, _, _ => none
  | fuel + 1, acc, l =>
    match l with
    | '"' :: rest =>
      match parseStringBody rest [] with
      | none => none
      | some (key, r1) =>
        match skipWs r1 with
        | ':' :: r2 =>
          match parseValue fuel (skipWs r2) with
          | none => none
          | some (v, r3) =>
            match skipWs r3 with
            | '\x7d' :: r4 => some (.obj (objInsert acc key v), r4)
            | ',' :: r4 => parseObjItems fuel (objInsert acc key v) (skipWs r4)
            | _ => none
        | _ => none
    | _ => none

end

/-- `json.load` on the file's text: parse one value with whitespace allowed on
both sides; trailing non-whitespace is an error. -/
def json_loads (s : String) : Option PyJson :=
  match parseValue (s.data.length + 1) (skipWs s.data) with
  | some (v, rest) => if skipWs rest = [] then some v else none
  | none => none

/-! ## extract_text_from_file

The PDF, DOCX and UTF-8 decoding steps delegate to external libraries
(PyPDF2, python-docx, `bytes.decode`); their per-file outcomes are modelled as
explicit `Except` fields of the uploaded file (an `error` is a raised
exception, caught by the function's `except` clause).  The `.json` branch is
modelled in full via `json_loads` / `json_dumps`. -/

/-- A Streamlit `UploadedFile` together with the modelled outcomes of the
external library calls on its bytes. -/
structure UploadedFile where
  name : String
  /-- `PyPDF2.PdfReader(...).pages` with each page's `extract_text()` result
  (`none` models a page returning `None`); `error` a raised parse exception. -/
  pdfOutcome : Except String (List (Option String))
  /-- `Document(...).paragraphs` texts; `error` a raised parse exception. -/
  docxOutcome : Except String (List String)
  /-- `uploaded_file.read().decode("utf-8")`; `error` a `UnicodeDecodeError`. -/
  txtOutcome : Except String String
  /-- The file's raw text, consumed by the `.json` branch. -/
  rawText : String

/-- The warning text for an unsupported extension. -/
def unsupportedWarning (extension filename : String) : String :=
  "Unsupported file type '" ++ extension ++ "' for '" ++ filename ++ "'. Skipping."

/-- The error text of the catch-all `except` clause (the model does not
reproduce Python's exception rendering, only that the file name and a cause
appear). -/
def couldNotProcess (filename exc : String) : String :=
  "Could not process '" ++ filename ++ "': " ++ exc

/-- `extract_text_from_file` from app.py: dispatch on the lower-cased
extension of the file name; any library failure is caught and reported,
yielding `none`.  The second component lists the UI notifications emitted. -/
def extract_text_from_file (uploaded_file : UploadedFile) :
    Option String × List UIEvent :=
  let filename := uploaded_file.name
  let extension := pyLower (splitext filename).2
  if extension = ".pdf" then
    match uploaded_file.pdfOutcome with
    | .ok pages => (some (String.join (pages.map (fun p => p.getD ""))), [])
    | .error exc => (none, [.error (couldNotProcess filename exc)])
  else if extension = ".docx" then
    match uploaded_file.docxOutcome with
    | .ok paragraphs => (some (pyJoin "\n" paragraphs), [])
    | .error exc => (none, [.error (couldNotProcess filename exc)])
  else if extension = ".txt" then
    match uploaded_file.txtOutcome with
    | .ok text => (some text, [])
    | .error exc => (none, [.error (couldNotProcess filename exc)])
  else if extension = ".json" then
    match json_loads uploaded_file.rawText with
    | some payload => (some (json_dumps payload), [])
    | none => (none, [.error (couldNotProcess filename "JSONDecodeError")])
  else (none, [.warning (unsupportedWarning extension filename)])

/-! ## get_model_list -/

/-- Outcome of `subprocess.run(["ollama", "list"], ..., timeout=10)`:
a completed process's stdout, or one of the exceptions the handler catches. -/
inductive RunOutcome where
  | completed (stdout : String)
  | fileNotFound
  | timedOut
  | otherError (exc : String)
deriving Repr, DecidableEq

/-- An external-process invocation request. -/
structure RunRequest where
  cmd : List String
  timeoutSeconds : Option Nat
deriving Repr, DecidableEq

/-- The request `get_model_list` issues: `ollama list` with a 10-second
timeout. -/
def ollamaListRequest : RunRequest :=
  { cmd := ["ollama", "list"], timeoutSeconds := some 10 }

/-- The list comprehension of `get_model_list`: skip the first stdout line,
keep each remaining line that is non-blank and does not start with `"NAME"`,
and take its first whitespace-delimited token.  (`line.split()[0]` cannot fail
under the guard, so `head?` is exact on every reachable input.) -/
def parse_model_lines (stdout : String) : List String :=
  let lines := pySplitlines stdout
  (lines.drop 1).filterMap (fun line =>
    if pyStrip line ≠ "" ∧ ¬ pyStartswith line "NAME" then (pySplit line).head?
    else none)

/-- `get_model_list` from app.py: on a completed run parse stdout; on any
caught exception emit one error notification and return `[]`. -/
def get_model_list (outcome : RunOutcome) : List String × List UIEvent :=
  match outcome with
  | .completed stdout => (parse_model_lines stdout, [])
  | .fileNotFound =>
    ([], [.error "Ollama is not installed or not on PATH. Please run `setup.sh` first."])
  | .timedOut => ([], [.error "Timed out while fetching the Ollama model list."])
  | .otherError exc => ([], [.error ("Unexpected error fetching model list: " ++ exc)])

/-! ## ask_model -/

def SYSTEM_PROMPT : String :=
  "You are an expert Document Analysis Assistant. " ++
  "You have been given the content of one or more documents. " ++
  "Answer the user's questions based solely on that content. " ++
  "If the answer cannot be found in the documents, say so clearly."

/-- One `{"role": ..., "content": ...}` chat message. -/
structure ChatMessage where
  role : String
  content : String
deriving Repr, DecidableEq

/-- The three-message exchange `ask_model` sends. -/
def askMessages (question context : String) : List ChatMessage :=
  [⟨"system", SYSTEM_PROMPT⟩,
   ⟨"user", "Here are the document contents you should reference:\n\n" ++ context⟩,
   ⟨"user", question⟩]

/-- `ask_model` from app.py: `ollama.chat`'s outcome is modelled as an
`Except` (an `error` is any raised exception, including a malformed response
whose `content` lacks `.strip()`).  On success the response is returned
stripped; on failure one error notification naming the model is emitted and
the literal error string is returned as the answer. -/
def ask_model (question model context : String)
    (chatOutcome : Except String String) : String × List UIEvent :=
  let _messages := askMessages question context
  match chatOutcome with
  | .ok content => (pyStrip content, [])
  | .error exc =>
    ("An error occurred: " ++ exc,
     [.error ("Error while querying model '" ++ model ++ "': " ++ exc)])

/-! ## Session state and the two handlers -/

/-- The session-state keys the handlers touch: the document table `df`, the
conversation history `chat`, and the preview flag `show_data`.  (The CSV side
artifact written by the process handler is out of scope: it is never read
back.) -/
structure SessionState where
  df : List DocRecord
  chat : List (String × String)
  show_data : Bool

/-- The `Option String` result of extraction for a file (its notifications
dropped). -/
def extractedText (uf : UploadedFile) : Option String :=
  (extract_text_from_file uf).1

/-- Whether `if text:` holds for a file's extraction result: extraction
succeeded with non-empty text. -/
def qualifies (uf : UploadedFile) : Bool :=
  match extractedText uf with
  | some t => t ≠ ""
  | none => false

/-- The records the process loop accumulates, in upload order. -/
def batchRecords (uploaded_files : List UploadedFile) : List DocRecord :=
  uploaded_files.filterMap (fun uf =>
    match extractedText uf with
    | some text => if text ≠ "" then some ⟨uf.name, text⟩ else none
    | none => none)

/-- All notifications the per-file extraction calls emit, in upload order. -/
def batchEvents (uploaded_files : List UploadedFile) : List UIEvent :=
  (uploaded_files.map (fun uf => (extract_text_from_file uf).2)).flatten

/-- The `if process_clicked:` handler of app.py: with no uploads, one error;
otherwise extract every file, and either replace `df` wholesale (non-empty
record list: set `show_data`, one success notification) or leave the state
unchanged (one batch-level error). -/
def process_clicked (state : SessionState) (uploaded_files : List UploadedFile) :
    SessionState × List UIEvent :=
  if uploaded_files.isEmpty then
    (state, [.error "Please upload at least one file before processing."])
  else
    let records := batchRecords uploaded_files
    let events := batchEvents uploaded_files
    if records.isEmpty then
      (state,
       events ++ [.error "No valid content could be extracted from the uploaded files."])
    else
      ({ state with df := records, show_data := true },
       events ++
         [.success (" " ++ toString records.length ++
           " file(s) processed and saved to temporary storage.")])

/-- The `if submit:` handler of the Q&A form: a blank question yields one
warning and no state change; an empty model selection yields one error and no
state change; otherwise the stripped question is sent and the
(question, answer) pair appended to the history.  The final component records
whether `ollama.chat` was invoked. -/
def qa_submit (state : SessionState) (user_question selected_model : String)
    (chatOutcome : Except String String) : SessionState × List UIEvent × Bool :=
  if pyStrip user_question = "" then
    (state, [.warning "Please enter a question."], false)
  else if selected_model = "" then
    (state, [.error "No model selected. Please install an Ollama model first."], false)
  else
    let context := build_context state.df
    let (answer, events) := ask_model (pyStrip user_question) selected_model context chatOutcome
    ({ state with chat := state.chat ++ [(pyStrip user_question, answer)] },
     events, true)

/-! ## Spec-side description of the model-list parse (for refinement)

`modelLinesSpec` follows the spec's words for claim C7, amended with the
`NAME`-filter the code applies: skip the first line, keep each remaining
non-blank line not starting with `"NAME"`, and take its first
whitespace-delimited token. It is compared against `parse_model_lines`, the
embedding of the code's list comprehension. -/

/-- The first whitespace-delimited token of a line: drop leading whitespace,
then take up to the next whitespace. -/
def firstToken (line : String) : String :=
  ⟨(line.data.dropWhile pyIsSpace).takeWhile (fun c => ! pyIsSpace c)⟩

/-- Spec-side parse: filter the kept lines, then map each to its first
token. -/
def modelLinesSpec (stdout : String) : List String :=
  (((pySplitlines stdout).drop 1).filter
    (fun line => decide (pyStrip line ≠ "" ∧ ¬ pyStartswith line "NAME"))).map
    firstToken

/-- The parse exactly as claim C7 words it: skip the header line and take the
first token of *every* remaining non-blank line (no `NAME`-filter). -/
def modelLinesClaimed (stdout : String) : List String :=
  (((pySplitlines stdout).drop 1).filter
    (fun line => decide (pyStrip line ≠ ""))).map firstToken

/-! ## Concrete uploads used by witnesses -/

/-- A well-formed `.txt` upload. -/
def sampleTxt : UploadedFile :=
  ⟨"notes.txt", .error "unused", .error "unused", .ok "hello", "hello"⟩

/-- A second well-formed `.txt` upload. -/
def sampleTxt2 : UploadedFile :=
  ⟨"more.txt", .error "unused", .error "unused", .ok "world", "world"⟩

/-- An upload with the unsupported extension `.xyz`. -/
def sampleXyz : UploadedFile :=
  ⟨"weird.xyz", .error "unused", .error "unused", .ok "ignored", "ignored"⟩

/-- A `.json` upload whose raw text is the compact object with key `"a"` and
value `1`. -/
def sampleJson : UploadedFile :=
  ⟨"data.json", .error "unused", .error "unused", .error "unused", "\x7b\"a\": 1\x7d"⟩

/-! ## Helper lemmas -/

theorem pyLen_mk (l : List Char) : pyLen ⟨l⟩ = l.length := rfl

theorem pyLen_append (s t : String) : pyLen (s ++ t) = pyLen s + pyLen t := by
  simp [pyLen, String.data_append]

theorem pyLen_take (s : String) (n : Nat) : pyLen (pyTake s n) = min n (pyLen s) := by
  simp [pyLen, pyTake]

theorem pyLen_truncationMarker : pyLen truncationMarker = 29 := rfl

theorem build_context_of_le (df : List DocRecord)
    (h : pyLen (joinedContents df) ≤ MAX_CONTEXT_CHARS) :
    build_context df = joinedContents df := by
  unfold build_context
  rw [if_neg (Nat.not_lt.mpr h)]

theorem build_context_of_gt (df : List DocRecord)
    (h : MAX_CONTEXT_CHARS < pyLen (joinedContents df)) :
    build_context df =
      pyTake (joinedContents df) MAX_CONTEXT_CHARS ++ truncationMarker := by
  unfold build_context
  rw [if_pos h]

theorem pyLen_build_context_of_gt (df : List DocRecord)
    (h : MAX_CONTEXT_CHARS < pyLen (joinedContents df)) :
    pyLen (build_context df) = MAX_CONTEXT_CHARS + pyLen truncationMarker := by
  rw [build_context_of_gt df h, pyLen_append, pyLen_take,
    Nat.min_eq_left (Nat.le_of_lt h)]

theorem pyLen_joined_single (name : String) (l : List Char) :
    pyLen (joinedContents [⟨name, ⟨l⟩⟩]) = l.length := rfl

/-! ## Claims -/

/-- C1 counterexample: a single document of 8,001 characters produces a
context strictly longer than the 8,000-character budget (8,029 characters:
the truncated content plus the 29-character marker), so the context string
can exceed the budget. -/
theorem C1_counterexample :
    MAX_CONTEXT_CHARS <
      pyLen (build_context [⟨"a.txt", ⟨List.replicate 8001 'a'⟩⟩]) := by
  have hj : pyLen (joinedContents [⟨"a.txt", ⟨List.replicate 8001 'a'⟩⟩]) = 8001 := by
    rw [pyLen_joined_single, List.length_replicate]
  have hgt : MAX_CONTEXT_CHARS <
      pyLen (joinedContents [⟨"a.txt", ⟨List.replicate 8001 'a'⟩⟩]) := by
    rw [hj]; norm_num [MAX_CONTEXT_CHARS]
  rw [pyLen_build_context_of_gt _ hgt, pyLen_truncationMarker]
  norm_num [MAX_CONTEXT_CHARS]

/-- C1 (amended): for every document table the context string produced by
`build_context` never exceeds the fixed character budget of 8,000 characters
plus the 29-character truncation marker (8,029 in total); any excess beyond
the budget is truncated from the tail, with the visible marker appended. -/
theorem C1_context_bounded (df : List DocRecord) :
    pyLen (build_context df) ≤ MAX_CONTEXT_CHARS + pyLen truncationMarker ∧
    (MAX_CONTEXT_CHARS < pyLen (joinedContents df) →
      build_context df =
        pyTake (joinedContents df) MAX_CONTEXT_CHARS ++ truncationMarker) := by
  refine ⟨?_, build_context_of_gt df⟩
  rcases Nat.lt_or_ge MAX_CONTEXT_CHARS (pyLen (joinedContents df)) with h | h
  · rw [pyLen_build_context_of_gt df h]
  · rw [build_context_of_le df h]
    exact h.trans (Nat.le_add_right _ _)

/-- Witness for C1 at a concrete 8,002-character document. -/
theorem C1_context_bounded_witness :
    pyLen (build_context [⟨"b.txt", ⟨List.replicate 8002 'b'⟩⟩]) ≤
      MAX_CONTEXT_CHARS + pyLen truncationMarker ∧
    build_context [⟨"b.txt", ⟨List.replicate 8002 'b'⟩⟩] =
      pyTake (joinedContents [⟨"b.txt", ⟨List.replicate 8002 'b'⟩⟩])
        MAX_CONTEXT_CHARS ++ truncationMarker := by
  have h := C1_context_bounded [⟨"b.txt", ⟨List.replicate 8002 'b'⟩⟩]
  refine ⟨h.1, h.2 ?_⟩
  rw [pyLen_joined_single, List.length_replicate]; decide

/-- C2 counterexample: for a single document of 8,001 characters the joined
length exceeds the budget, yet the produced context (truncated content plus
marker) is not a prefix of the unbounded concatenation — it is even longer
than the whole concatenation. -/
theorem C2_counterexample :
    MAX_CONTEXT_CHARS < pyLen (joinedContents [⟨"c.txt", ⟨List.replicate 8001 'c'⟩⟩]) ∧
    ¬ ∃ rest, joinedContents [⟨"c.txt", ⟨List.replicate 8001 'c'⟩⟩] =
        build_context [⟨"c.txt", ⟨List.replicate 8001 'c'⟩⟩] ++ rest := by
  have hj : pyLen (joinedContents [⟨"c.txt", ⟨List.replicate 8001 'c'⟩⟩]) = 8001 := by
    rw [pyLen_joined_single, List.length_replicate]
  have hgt : MAX_CONTEXT_CHARS <
      pyLen (joinedContents [⟨"c.txt", ⟨List.replicate 8001 'c'⟩⟩]) := by
    rw [hj]; norm_num [MAX_CONTEXT_CHARS]
  refine ⟨hgt, ?_⟩
  rintro ⟨rest, h⟩
  have hlen := congrArg pyLen h
  rw [pyLen_append, pyLen_build_context_of_gt _ hgt, pyLen_truncationMarker, hj] at hlen
  simp [MAX_CONTEXT_CHARS] at hlen
  omega

/-- C2 (amended): for every document table whose contents joined with the
separator have length L: if L ≤ 8,000 then `build_context` returns exactly the
joined concatenation; if L > 8,000 then the output's length is 8,000 plus the
marker length, and the output with the marker removed — its first 8,000
characters — is a prefix of the unbounded concatenation. -/
theorem C2_build_exact_or_truncated (df : List DocRecord) :
    (pyLen (joinedContents df) ≤ MAX_CONTEXT_CHARS →
      build_context df = joinedContents df) ∧
    (MAX_CONTEXT_CHARS < pyLen (joinedContents df) →
      pyLen (build_context df) = MAX_CONTEXT_CHARS + pyLen truncationMarker ∧
      ∃ p rest, build_context df = p ++ truncationMarker ∧
        joinedContents df = p ++ rest ∧ pyLen p = MAX_CONTEXT_CHARS) := by
  refine ⟨build_context_of_le df, fun h => ⟨pyLen_build_context_of_gt df h, ?_⟩⟩
  refine ⟨pyTake (joinedContents df) MAX_CONTEXT_CHARS,
    ⟨(joinedContents df).data.drop MAX_CONTEXT_CHARS⟩,
    build_context_of_gt df h, ?_, ?_⟩
  · apply String.ext
    simp [pyTake, String.data_append]
  · rw [pyLen_take, Nat.min_eq_left (Nat.le_of_lt h)]

/-- Witness for C2: the short case at a 5-character document, the long case at
an 8,003-character document. -/
theorem C2_build_exact_or_truncated_witness :
    build_context [⟨"s.txt", "hello"⟩] = joinedContents [⟨"s.txt", "hello"⟩] ∧
    pyLen (build_context [⟨"d.txt", ⟨List.replicate 8003 'd'⟩⟩]) =
      MAX_CONTEXT_CHARS + pyLen truncationMarker := by
  refine ⟨(C2_build_exact_or_truncated [⟨"s.txt", "hello"⟩]).1 (by decide),
    ((C2_build_exact_or_truncated [⟨"d.txt", ⟨List.replicate 8003 'd'⟩⟩]).2 ?_).1⟩
  rw [pyLen_joined_single, List.length_replicate]; decide

theorem filterMap_eq_map_filter {α β : Type} (f : α → Option β) (p : α → Bool)
    (g : α → β) (hf : ∀ a, f a = if p a then some (g a) else none) (l : List α) :
    l.filterMap f = (l.filter p).map g := by
  induction l with
  | nil => rfl
  | cons a l ih =>
    rw [List.filterMap_cons, List.filter_cons, hf a]
    by_cases h : p a <;> simp [h, ih]

theorem extract_eq_qualifies (uf : UploadedFile) :
    (match extractedText uf with
      | some text => if text ≠ "" then some (⟨uf.name, text⟩ : DocRecord) else none
      | none => none) =
    if qualifies uf then some ⟨uf.name, (extractedText uf).getD ""⟩ else none := by
  cases h : extractedText uf with
  | none => simp [qualifies, h]
  | some t =>
    simp only [qualifies, h]
    by_cases ht : t = "" <;> simp [ht]

theorem batchRecords_eq_filter (ufs : List UploadedFile) :
    batchRecords ufs = (ufs.filter qualifies).map
      (fun uf => ⟨uf.name, (extractedText uf).getD ""⟩) := by
  unfold batchRecords
  exact filterMap_eq_map_filter _ qualifies _ (fun uf => extract_eq_qualifies uf) ufs

theorem isEmpty_false_of_ne_nil {α : Type} {l : List α} (h : l ≠ []) :
    l.isEmpty = false := by
  cases l with
  | nil => exact absurd rfl h
  | cons a l => rfl

/-- C3: for every batch of uploaded files, after a successful process action
(the accumulated record list is non-empty) the document table holds exactly
one `{name, content}` record per file whose extraction yielded non-empty text,
in upload order, and the result does not depend on the previous session state:
the table is replaced wholesale, not merged or appended. -/
theorem C3_process_replaces_table (state : SessionState)
    (uploaded_files : List UploadedFile)
    (hne : uploaded_files ≠ [])
    (hsucc : batchRecords uploaded_files ≠ []) :
    (process_clicked state uploaded_files).1.df =
      (uploaded_files.filter qualifies).map
        (fun uf => ⟨uf.name, (extractedText uf).getD ""⟩) ∧
    ∀ other : SessionState,
      (process_clicked other uploaded_files).1.df =
        (process_clicked state uploaded_files).1.df := by
  have hkey : ∀ st : SessionState,
      (process_clicked st uploaded_files).1.df = batchRecords uploaded_files := by
    intro st
    simp [process_clicked, isEmpty_false_of_ne_nil hne,
      isEmpty_false_of_ne_nil hsucc]
  exact ⟨(hkey state).trans (batchRecords_eq_filter uploaded_files),
    fun other => (hkey other).trans (hkey state).symm⟩

/-- Witness for C3: a batch of a valid `.txt` file and an unsupported file,
processed from two different previous states. -/
theorem C3_process_replaces_table_witness :
    (process_clicked ⟨[], [], false⟩ [sampleTxt, sampleXyz]).1.df =
      ([sampleTxt, sampleXyz].filter qualifies).map
        (fun uf => ⟨uf.name, (extractedText uf).getD ""⟩) ∧
    (process_clicked ⟨[⟨"old", "gone"⟩], [("q", "a")], true⟩
        [sampleTxt, sampleXyz]).1.df =
      (process_clicked ⟨[], [], false⟩ [sampleTxt, sampleXyz]).1.df := by
  have h := C3_process_replaces_table ⟨[], [], false⟩ [sampleTxt, sampleXyz]
    (List.cons_ne_nil _ _) (by decide)
  exact ⟨h.1, h.2 ⟨[⟨"old", "gone"⟩], [("q", "a")], true⟩⟩

/-- C4: for every uploaded file whose lower-cased extension is not one of
`.pdf`, `.docx`, `.txt`, `.json`, extraction returns `none` with exactly one
user-visible warning, the warning text contains the unsupported extension, and
processing of the remaining files in the same batch continues (the batch
records around the file are exactly those of the other files). -/
theorem C4_unsupported_extension (uf : UploadedFile)
    (h : pyLower (splitext uf.name).2 ∉ ([".pdf", ".docx", ".txt", ".json"] : List String)) :
    extract_text_from_file uf =
      (none, [UIEvent.warning
        (unsupportedWarning (pyLower (splitext uf.name).2) uf.name)]) ∧
    (∃ a b : String, unsupportedWarning (pyLower (splitext uf.name).2) uf.name =
      a ++ (pyLower (splitext uf.name).2 ++ b)) ∧
    ∀ pre post, batchRecords (pre ++ uf :: post) =
      batchRecords pre ++ batchRecords post := by
  simp only [List.mem_cons, List.not_mem_nil, or_false, not_or] at h
  obtain ⟨h1, h2, h3, h4⟩ := h
  have hext : extract_text_from_file uf =
      (none, [UIEvent.warning
        (unsupportedWarning (pyLower (splitext uf.name).2) uf.name)]) := by
    simp only [extract_text_from_file]
    rw [if_neg h1, if_neg h2, if_neg h3, if_neg h4]
  refine ⟨hext,
    ⟨"Unsupported file type '", "' for '" ++ uf.name ++ "'. Skipping.", ?_⟩, ?_⟩
  · apply String.ext
    simp [unsupportedWarning, String.data_append]
  · intro pre post
    have hnone : extractedText uf = none := by
      unfold extractedText
      rw [hext]
    unfold batchRecords
    rw [List.filterMap_append, List.filterMap_cons]
    simp [hnone]

/-- Witness for C4 at the `.xyz` upload, sitting between two `.txt` files. -/
theorem C4_unsupported_extension_witness :
    extract_text_from_file sampleXyz =
      (none, [UIEvent.warning (unsupportedWarning ".xyz" "weird.xyz")]) ∧
    batchRecords [sampleTxt, sampleXyz, sampleTxt2] =
      batchRecords [sampleTxt] ++ batchRecords [sampleTxt2] := by
  have h := C4_unsupported_extension sampleXyz (by decide)
  exact ⟨h.1, h.2.2 [sampleTxt] [sampleTxt2]⟩

/-- C9: if a non-empty batch yields no records (no file's extraction produced
non-empty text) the session state — in particular the document table — is left
exactly as it was, and a single batch-level error is appended after the
per-file notifications. -/
theorem C9_empty_batch_unchanged (state : SessionState)
    (uploaded_files : List UploadedFile)
    (hne : uploaded_files ≠ [])
    (hall : ∀ uf ∈ uploaded_files, qualifies uf = false) :
    process_clicked state uploaded_files =
      (state, batchEvents uploaded_files ++
        [.error "No valid content could be extracted from the uploaded files."]) := by
  have hrec : batchRecords uploaded_files = [] := by
    rw [batchRecords_eq_filter]
    have : uploaded_files.filter qualifies = [] := by
      rw [List.filter_eq_nil_iff]
      intro a ha
      rw [hall a ha]
      exact Bool.false_ne_true
    rw [this, List.map_nil]
  simp [process_clicked, isEmpty_false_of_ne_nil hne, hrec]

/-- Witness for C9: processing a batch holding only the `.xyz` upload from a
state with one old document and one chat entry. -/
theorem C9_empty_batch_unchanged_witness :
    process_clicked ⟨[⟨"old", "doc"⟩], [("q", "a")], true⟩ [sampleXyz] =
      (⟨[⟨"old", "doc"⟩], [("q", "a")], true⟩, batchEvents [sampleXyz] ++
        [.error "No valid content could be extracted from the uploaded files."]) :=
  C9_empty_batch_unchanged _ _ (List.cons_ne_nil _ _) (by decide)

theorem pyStrip_eq_empty_iff (s : String) :
    pyStrip s = "" ↔ ∀ c ∈ s.data, pyIsSpace c := by
  unfold pyStrip
  constructor
  · intro h
    have hdata : ((s.data.dropWhile pyIsSpace).reverse.dropWhile pyIsSpace).reverse
        = [] := congrArg String.data h
    rw [List.reverse_eq_nil_iff, List.dropWhile_eq_nil_iff] at hdata
    intro c hc
    rw [← List.takeWhile_append_dropWhile (p := pyIsSpace) (l := s.data)] at hc
    rcases List.mem_append.mp hc with h1 | h2
    · exact List.mem_takeWhile_imp h1
    · exact hdata c (List.mem_reverse.mpr h2)
  · intro h
    have h1 : s.data.dropWhile pyIsSpace = [] :=
      List.dropWhile_eq_nil_iff.mpr fun x hx => h x hx
    rw [h1]
    rfl

/-- C5: for every uploaded file whose lower-cased extension is `.json` and
whose raw text parses as JSON value `v`, the extracted content is exactly the
pretty-printed re-serialisation `json_dumps v` (indent 2, non-ASCII
preserved) — a parse-then-reformat round trip, not the raw input. -/
theorem C5_json_pretty_roundtrip (uf : UploadedFile) (v : PyJson)
    (hext : pyLower (splitext uf.name).2 = ".json")
    (hparse : json_loads uf.rawText = some v) :
    extract_text_from_file uf = (some (json_dumps v), []) := by
  simp [extract_text_from_file, hext, hparse]

/-- Witness for C5: uploading the compact JSON text with key `"a"` and value
`1` yields the indented two-line serialisation, different from the raw
input. -/
theorem C5_json_pretty_roundtrip_witness :
    extract_text_from_file sampleJson = (some "\x7b\n  \"a\": 1\n\x7d", []) ∧
    some sampleJson.rawText ≠ (extract_text_from_file sampleJson).1 := by
  have h := C5_json_pretty_roundtrip sampleJson (.obj [("a", .int 1)]) rfl (by rfl)
  constructor
  · exact h.trans (by rfl)
  · rw [h]
    decide

/-- C6: `get_model_list` never lets a failure escape — on missing executable,
timeout, or any other invocation failure it emits exactly one non-empty
user-visible error and returns the empty list; the invocation itself is
bounded by a 10-second timeout. -/
theorem C6_model_list_failures (outcome : RunOutcome)
    (h : ∀ stdout, outcome ≠ .completed stdout) :
    (get_model_list outcome).1 = [] ∧
    (∃ msg, (get_model_list outcome).2 = [.error msg] ∧ msg ≠ "") ∧
    ollamaListRequest.timeoutSeconds = some 10 := by
  cases outcome with
  | completed s => exact absurd rfl (h s)
  | fileNotFound => exact ⟨rfl, ⟨_, rfl, by decide⟩, rfl⟩
  | timedOut => exact ⟨rfl, ⟨_, rfl, by decide⟩, rfl⟩
  | otherError exc =>
    refine ⟨rfl, ⟨_, rfl, ?_⟩, rfl⟩
    intro heq
    have h2 := congrArg pyLen heq
    rw [pyLen_append] at h2
    have h3 : pyLen "Unexpected error fetching model list: " = 38 := rfl
    have h4 : pyLen "" = 0 := rfl
    rw [h3, h4] at h2
    omega

/-- Witness for C6 at the timeout outcome. -/
theorem C6_model_list_failures_witness :
    (get_model_list .timedOut).1 = [] ∧
    (get_model_list .timedOut).2 =
      [.error "Timed out while fetching the Ollama model list."] ∧
    ollamaListRequest.timeoutSeconds = some 10 := by
  have h := C6_model_list_failures .timedOut (fun _ hs => RunOutcome.noConfusion hs)
  exact ⟨h.1, rfl, h.2.2⟩

/-- C8: `ask_model` is total. On success it returns the response text with
surrounding whitespace stripped and no error; on failure it emits one error
naming the model and the cause and returns the synthesized answer string
`"An error occurred: " ++ cause`; the submit handler then appends this
returned string to the conversation history exactly as it would a real
answer. -/
theorem C8_ask_model_error_contract (question model context : String)
    (outcome : Except String String) (state : SessionState) (selected : String) :
    (∀ text, outcome = .ok text →
      ask_model question model context outcome = (pyStrip text, [])) ∧
    (∀ exc, outcome = .error exc →
      ask_model question model context outcome =
        ("An error occurred: " ++ exc,
         [.error ("Error while querying model '" ++ model ++ "': " ++ exc)])) ∧
    (pyStrip question ≠ "" → selected ≠ "" →
      (qa_submit state question selected outcome).1.chat =
        state.chat ++ [(pyStrip question,
          (ask_model (pyStrip question) selected (build_context state.df)
            outcome).1)]) := by
  refine ⟨?_, ?_, ?_⟩
  · rintro text rfl; rfl
  · rintro exc rfl; rfl
  · intro hq hm
    rcases hak : ask_model (pyStrip question) selected (build_context state.df)
      outcome with ⟨answer, events⟩
    simp [qa_submit, hq, hm, hak]

/-- Witness for C8: a successful call with padded response text, a failing
call, and the failing call's answer recorded in the history. -/
theorem C8_ask_model_error_contract_witness :
    ask_model "Q?" "llama3" "ctx" (.ok "  ans  ") = ("ans", []) ∧
    ask_model " Q? " "llama3" "ctx" (.error "boom") =
      ("An error occurred: boom",
       [.error "Error while querying model 'llama3': boom"]) ∧
    (qa_submit ⟨[⟨"d", "c"⟩], [], true⟩ " Q? " "llama3" (.error "boom")).1.chat =
      [] ++ [(pyStrip " Q? ",
        (ask_model (pyStrip " Q? ") "llama3"
          (build_context [⟨"d", "c"⟩]) (.error "boom")).1)] := by
  have hok := C8_ask_model_error_contract "Q?" "llama3" "ctx" (.ok "  ans  ")
    ⟨[⟨"d", "c"⟩], [], true⟩ "llama3"
  have herr := C8_ask_model_error_contract " Q? " "llama3" "ctx" (.error "boom")
    ⟨[⟨"d", "c"⟩], [], true⟩ "llama3"
  exact ⟨hok.1 "  ans  " rfl, herr.2.1 "boom" rfl,
    herr.2.2 (by decide) (by decide)⟩

/-- C10: submitting a blank or whitespace-only question leaves the whole
session state unchanged — in particular the conversation history and the
document table — emitting only a warning, with no model call made; when a
question is accepted (non-blank, model selected), the document table is
untouched and the appended history entry stores the question stripped of
surrounding whitespace. -/
theorem C10_blank_question_frame (state : SessionState)
    (user_question selected_model : String) (outcome : Except String String) :
    ((∀ c ∈ user_question.data, pyIsSpace c) →
      qa_submit state user_question selected_model outcome =
        (state, [.warning "Please enter a question."], false)) ∧
    (pyStrip user_question ≠ "" → selected_model ≠ "" →
      (qa_submit state user_question selected_model outcome).1.df = state.df ∧
      (qa_submit state user_question selected_model outcome).1.chat =
        state.chat ++ [(pyStrip user_question,
          (ask_model (pyStrip user_question) selected_model
            (build_context state.df) outcome).1)]) := by
  constructor
  · intro hall
    have hs : pyStrip user_question = "" := (pyStrip_eq_empty_iff _).mpr hall
    unfold qa_submit
    rw [if_pos hs]
  · intro hq hm
    rcases hak : ask_model (pyStrip user_question) selected_model
      (build_context state.df) outcome with ⟨answer, events⟩
    simp [qa_submit, hq, hm, hak]

/-- Witness for C10: a three-space question is rejected without any state
change; the question `" hi "` is recorded stripped. -/
theorem C10_blank_question_frame_witness :
    qa_submit ⟨[⟨"d", "c"⟩], [("q0", "a0")], true⟩ "   " "llama3" (.ok "x") =
      (⟨[⟨"d", "c"⟩], [("q0", "a0")], true⟩,
        [.warning "Please enter a question."], false) ∧
    (qa_submit ⟨[⟨"d", "c"⟩], [("q0", "a0")], true⟩ " hi " "llama3"
        (.ok " ans ")).1.df = [⟨"d", "c"⟩] ∧
    (qa_submit ⟨[⟨"d", "c"⟩], [("q0", "a0")], true⟩ " hi " "llama3"
        (.ok " ans ")).1.chat =
      [("q0", "a0")] ++ [(pyStrip " hi ",
        (ask_model (pyStrip " hi ") "llama3"
          (build_context [⟨"d", "c"⟩]) (.ok " ans ")).1)] := by
  have h1 := C10_blank_question_frame ⟨[⟨"d", "c"⟩], [("q0", "a0")], true⟩
    "   " "llama3" (.ok "x")
  have h2 := C10_blank_question_frame ⟨[⟨"d", "c"⟩], [("q0", "a0")], true⟩
    " hi " "llama3" (.ok " ans ")
  exact ⟨h1.1 (by decide), (h2.2 (by decide) (by decide)).1,
    (h2.2 (by decide) (by decide)).2⟩

theorem splitWsGo_head (l : List Char) :
    ∀ acc : List Char, acc ≠ [] →
      (splitWsGo l acc).head? =
        some ⟨acc.reverse ++ l.takeWhile (fun c => ! pyIsSpace c)⟩ := by
  induction l with
  | nil =>
    intro acc h
    match acc, h with
    | a :: as, _ => simp [splitWsGo]
  | cons c rest ih =>
    intro acc h
    by_cases hc : pyIsSpace c
    · match acc, h with
      | a :: as, _ => simp [splitWsGo, hc, List.takeWhile_cons]
    · simp [splitWsGo, hc, List.takeWhile_cons,
        ih (c :: acc) (List.cons_ne_nil c acc), List.append_assoc]

theorem splitWsGo_nil_head (l : List Char) (h : l.dropWhile pyIsSpace ≠ []) :
    (splitWsGo l []).head? =
      some ⟨(l.dropWhile pyIsSpace).takeWhile (fun c => ! pyIsSpace c)⟩ := by
  induction l with
  | nil => exact absurd rfl h
  | cons c rest ih =>
    by_cases hc : pyIsSpace c
    · have hd : (c :: rest).dropWhile pyIsSpace = rest.dropWhile pyIsSpace := by
        simp [List.dropWhile_cons, hc]
      rw [hd] at h ⊢
      have hgo : splitWsGo (c :: rest) [] = splitWsGo rest [] := by
        simp [splitWsGo, hc]
      rw [hgo]
      exact ih h
    · have hgo : splitWsGo (c :: rest) [] = splitWsGo rest [c] := by
        simp [splitWsGo, hc]
      have hd : (c :: rest).dropWhile pyIsSpace = c :: rest := by
        simp [List.dropWhile_cons, hc]
      rw [hgo, splitWsGo_head rest [c] (List.cons_ne_nil c []), hd]
      simp [List.takeWhile_cons, hc]

theorem pySplit_head (line : String) (h : pyStrip line ≠ "") :
    (pySplit line).head? = some (firstToken line) := by
  unfold pySplit firstToken
  apply splitWsGo_nil_head
  intro hdrop
  exact h ((pyStrip_eq_empty_iff line).mpr (List.dropWhile_eq_nil_iff.mp hdrop))

/-- C7 counterexample: on the stdout whose second data line starts with
`NAME`, the parse the claim describes (first token of every remaining
non-blank line) yields `["NAMEly", "llama3"]`, but `get_model_list` also
filters out every line starting with `"NAME"` and yields `["llama3"]`. -/
theorem C7_counterexample :
    modelLinesClaimed "NAME ID\nNAMEly tag\nllama3 abc" = ["NAMEly", "llama3"] ∧
    parse_model_lines "NAME ID\nNAMEly tag\nllama3 abc" = ["llama3"] ∧
    parse_model_lines "NAME ID\nNAMEly tag\nllama3 abc" ≠
      modelLinesClaimed "NAME ID\nNAMEly tag\nllama3 abc" := by
  decide

/-- C7 (amended): for every stdout of the model-listing command,
`get_model_list` parses it by skipping the first (header) line and, for each
remaining non-blank line that does not itself start with `"NAME"`, taking its
first whitespace-delimited token as a model identifier, in line order. -/
theorem C7_parse_refines_spec (stdout : String) :
    parse_model_lines stdout = modelLinesSpec stdout := by
  simp only [parse_model_lines, modelLinesSpec]
  apply filterMap_eq_map_filter
  intro line
  by_cases hP : pyStrip line ≠ "" ∧ ¬ pyStartswith line "NAME"
  · rw [if_pos hP, pySplit_head line hP.1, if_pos (decide_eq_true hP)]
  · rw [if_neg hP, if_neg (by rw [decide_eq_false hP]; exact Bool.false_ne_true)]

end AnyDocumentAI
